import Mathlib

/-!
Shallow embedding of the pastebin service in `src/main.py`: the paste
store (the `pastes/` directory of `.txt` content files with `.json`
metadata sidecars) and the four operations `create_paste`, `view_paste`,
`top_pastes` and `recent_pastes`, together with theorems settling the
specification claims about them.
-/

namespace Sinners

/-- The metadata dictionary held in a paste's `.json` sidecar file.
Each field is optional, mirroring lookup on a JSON object with
`dict.get(key, default)`; `create_paste` writes all six keys, but
`view_paste`'s rewrite of an unparseable sidecar writes only `views`.
The `syntax` key of the Python dict is named `syn` here. -/
structure Meta where
  title : Option String
  syn : Option String
  visibility : Option String
  expires : Option String
  created_at : Option Nat
  views : Option Nat
deriving Repr, DecidableEq

/-- The state of a paste's `.json` sidecar file: missing
(`os.path.exists` is false), present but not valid JSON
(`json.loads` raises `JSONDecodeError`), or a parsed dictionary. -/
inductive MetaFile where
  | absent : MetaFile
  | invalid : MetaFile
  | valid : Meta → MetaFile
deriving Repr, DecidableEq

/-- The on-disk files of one paste id: the `.txt` content file (its text
and its modification time, which `os.path.getmtime` reads; the file is
written exactly once, at creation) and the `.json` sidecar. -/
structure PasteFiles where
  content : String
  mtime : Nat
  meta : MetaFile
deriving Repr, DecidableEq

/-- The `pastes/` directory: an association of paste ids to their files,
listed in the order `glob.glob` yields them. -/
abbrev Store := List (String × PasteFiles)

/-- File lookup by paste id (`os.path.exists` on `{paste_id}.txt`
followed by the reads). -/
def lookupPaste : Store → String → Option PasteFiles
  | [], _ => none
  | (i, pf) :: rest, pid => if i = pid then some pf else lookupPaste rest pid

/-- Rewrite the `.json` sidecar of the given paste id in place
(the `seek(0)`/`write`/`truncate` sequence of `view_paste`). -/
def updateMeta : Store → String → MetaFile → Store
  | [], _, _ => []
  | (i, pf) :: rest, pid, mf =>
    if i = pid then (i, { pf with meta := mf }) :: rest
    else (i, pf) :: updateMeta rest pid mf

/-- Response of the `POST /api/paste` handler: a 200 with
`{"url": "/paste/{id}"}`, or the `except` branch's 500 carrying
`{"error": "Internal Server Error", "details": str(e)}`. -/
inductive CreateResponse where
  | ok : String → CreateResponse
  | err : Nat → String → String → CreateResponse
deriving Repr, DecidableEq

/-- `create_paste` (`src/main.py:31`): stores `content` under a fresh id,
writes the metadata sidecar with `expires` hardcoded to `"never"` and
`views` initialised to 0, and answers with the paste URL. `now` is
`datetime.utcnow()` (also the written `.txt` file's modification time);
`ioErr = some e` injects a storage exception `e`, on which the handler
logs and returns the 500 response with `details = str(e)`. -/
def create_paste (s : Store) (pasteId content title syn visibility : String)
    (now : Nat) (ioErr : Option String) : Store × CreateResponse :=
  match ioErr with
  | some e => (s, .err 500 "Internal Server Error" e)
  | none =>
    let m : Meta :=
      { title := some title, syn := some syn, visibility := some visibility
        expires := some "never", created_at := some now, views := some 0 }
    ((pasteId, { content := content, mtime := now, meta := .valid m }) :: s,
      .ok ("/paste/" ++ pasteId))

/-- Result of the `GET /paste/{paste_id}` handler: the 404
`HTTPException` or the rendered page (paste id, title, content). -/
inductive ViewResult where
  | notFound : Nat → String → ViewResult
  | page : String → String → String → ViewResult
deriving Repr, DecidableEq

/-- The `title = data.get("title", paste_id) or paste_id` fallback:
a missing or empty (falsy) title is replaced by the paste id. -/
def titleOf (t : Option String) (pid : String) : String :=
  match t with
  | some t => if t = "" then pid else t
  | none => pid

/-- `view_paste` (`src/main.py:95`): 404 when the `.txt` file is missing;
otherwise reads the content, and if the `.json` sidecar exists reads it
(treating unparseable JSON as the empty dict), increments `views`,
resolves the title with the falsy fallback, and rewrites the sidecar.
Returns the rendered page and the updated store. -/
def view_paste (s : Store) (pid : String) : ViewResult × Store :=
  match lookupPaste s pid with
  | none => (.notFound 404 "Paste not found", s)
  | some pf =>
    match pf.meta with
    | .absent => (.page pid pid pf.content, s)
    | .invalid =>
      (.page pid pid pf.content,
        updateMeta s pid (.valid
          { title := none, syn := none, visibility := none
            expires := none, created_at := none, views := some 1 }))
    | .valid m =>
      (.page pid (titleOf m.title pid) pf.content,
        updateMeta s pid (.valid { m with views := some (m.views.getD 0 + 1) }))

/-- One entry of the `/api/top` and `/api/recent` JSON answers. -/
structure Info where
  id : String
  title : String
  views : Nat
deriving Repr, DecidableEq

/-- The `{"id": pid, "title": ..., "views": ...}` entry built for one
paste by `top_pastes`/`recent_pastes`: defaults apply when the sidecar
is missing or unparseable, with the same falsy title fallback. -/
def infoOf (p : String × PasteFiles) : Info :=
  match p.2.meta with
  | .absent => { id := p.1, title := p.1, views := 0 }
  | .invalid => { id := p.1, title := p.1, views := 0 }
  | .valid m => { id := p.1, title := titleOf m.title p.1, views := m.views.getD 0 }

/-- The sort key of `/api/top`: `os.path.getsize` on the `.txt` file,
i.e. the byte size of the content; `bySize a b` says `a` may precede `b`
in the descending order (`sorted(..., reverse=True)` is stable, so ties
keep their original order, which this reflexive relation preserves under
stable insertion sort). -/
def bySize (a b : String × PasteFiles) : Prop :=
  b.2.content.utf8ByteSize ≤ a.2.content.utf8ByteSize

instance : DecidableRel bySize := fun _ _ => Nat.decLe _ _

instance : IsTotal (String × PasteFiles) bySize :=
  ⟨fun a b => Nat.le_total b.2.content.utf8ByteSize a.2.content.utf8ByteSize⟩

instance : IsTrans (String × PasteFiles) bySize :=
  ⟨fun _ _ _ h1 h2 => Nat.le_trans h2 h1⟩

/-- The sort key of `/api/recent`: `os.path.getmtime` on the `.txt`
file, descending. -/
def byMtime (a b : String × PasteFiles) : Prop :=
  b.2.mtime ≤ a.2.mtime

instance : DecidableRel byMtime := fun _ _ => Nat.decLe _ _

instance : IsTotal (String × PasteFiles) byMtime :=
  ⟨fun a b => Nat.le_total b.2.mtime a.2.mtime⟩

instance : IsTrans (String × PasteFiles) byMtime :=
  ⟨fun _ _ _ h1 h2 => Nat.le_trans h2 h1⟩

/-- `top_pastes` (`src/main.py:70`): all `.txt` files sorted by file
size descending (stably), truncated to 10, each mapped to its info
entry. -/
def top_pastes (s : Store) : List Info :=
  ((List.insertionSort bySize s).take 10).map infoOf

/-- `recent_pastes` (`src/main.py:129`): all `.txt` files sorted by
modification time descending (stably), truncated to 10, each mapped to
its info entry. -/
def recent_pastes (s : Store) : List Info :=
  ((List.insertionSort byMtime s).take 10).map infoOf

/-- Value of a decimal digit string, mirroring `int(...)` on the numeric
group of the expiry grammar. -/
def digitsToNat (ds : List Char) : Nat :=
  ds.foldl (fun a c => a * 10 + (c.toNat - 48)) 0

/-- Modelled from the spec: the number of seconds selected by a unit
letter of the expiry grammar `^(\d+)([smhd])$` (seconds, minutes,
hours, days); no duration parser exists in `src/main.py`, which
hardcodes `expires = "never"`. -/
def unitSeconds : Char → Option Nat
  | 's' => some 1
  | 'm' => some 60
  | 'h' => some 3600
  | 'd' => some 86400
  | _ => none

/-- Modelled from the spec: the duration parser of §4.1. `"never"` and
every malformed token mean "no expiration" (`none`); a token matching
`^(\d+)([smhd])$` yields the absolute instant `created + n * unit`. -/
def parseExpiry (created : Nat) (token : String) : Option Nat :=
  if token = "never" then none
  else
    match token.data.getLast? with
    | none => none
    | some u =>
      match unitSeconds u with
      | none => none
      | some k =>
        let ds := token.data.dropLast
        if ds.isEmpty then none
        else if ds.all Char.isDigit then some (created + digitsToNat ds * k)
        else none

/-- Modelled from the spec: the absolute expiry instant of a stored
paste, when one exists — the parse of the stored `expires` token
relative to the stored creation instant (§3: `expiresAt` is derived
from `createdAt` plus a parsed duration). -/
def expiresAtOf (pf : PasteFiles) : Option Nat :=
  match pf.meta with
  | .valid m =>
    match m.created_at, m.expires with
    | some c, some tok => parseExpiry c tok
    | _, _ => none
  | _ => none

/-- Modelled from the spec: a record is live iff its expiry instant is
absent or strictly greater than `now`; `expired` is its negation. -/
def isExpired (now : Nat) (pf : PasteFiles) : Bool :=
  match expiresAtOf pf with
  | some e => e ≤ now
  | none => false

/-- Whether a sidecar never yields an expiry instant: valid metadata
whose `expires` token is `"never"` or missing, or no parsed metadata at
all. Every sidecar this program writes satisfies it. -/
def metaNeverExpires : MetaFile → Bool
  | .valid m => m.expires = some "never" || m.expires = none
  | _ => true

/-- A store in which no record carries a real expiry token; every store
reachable through this program's operations is of this kind. -/
def neverExpiring (s : Store) : Bool :=
  s.all fun p => metaNeverExpires p.2.meta

end Sinners

namespace Sinners

theorem lookupPaste_mem {s : Store} {pid : String} {pf : PasteFiles}
    (h : lookupPaste s pid = some pf) : (pid, pf) ∈ s := by
  induction s with
  | nil => simp [lookupPaste] at h
  | cons p rest ih =>
    obtain ⟨i, pf'⟩ := p
    by_cases hi : i = pid
    · subst hi
      simp [lookupPaste] at h
      subst h
      exact List.mem_cons_self _ _
    · rw [lookupPaste, if_neg hi] at h
      exact List.mem_cons_of_mem _ (ih h)

theorem lookupPaste_updateMeta_self {s : Store} {pid : String} {pf : PasteFiles}
    (mf : MetaFile) (h : lookupPaste s pid = some pf) :
    lookupPaste (updateMeta s pid mf) pid = some { pf with meta := mf } := by
  induction s with
  | nil => simp [lookupPaste] at h
  | cons p rest ih =>
    obtain ⟨i, pf'⟩ := p
    by_cases hi : i = pid
    · rw [lookupPaste, if_pos hi] at h
      rw [updateMeta, if_pos hi, lookupPaste, if_pos hi]
      rw [Option.some_inj] at h
      rw [h]
    · rw [lookupPaste, if_neg hi] at h
      rw [updateMeta, if_neg hi, lookupPaste, if_neg hi]
      exact ih h

theorem lookupPaste_updateMeta_ne {s : Store} {pid q : String} (mf : MetaFile)
    (hq : q ≠ pid) : lookupPaste (updateMeta s pid mf) q = lookupPaste s q := by
  induction s with
  | nil => rfl
  | cons p rest ih =>
    obtain ⟨i, pf'⟩ := p
    by_cases hi : i = pid
    · subst hi
      rw [updateMeta, if_pos rfl, lookupPaste, lookupPaste, if_neg, if_neg]
      · exact fun hiq => hq hiq.symm
      · exact fun hiq => hq hiq.symm
    · rw [updateMeta, if_neg hi, lookupPaste, lookupPaste]
      by_cases hiq : i = q
      · rw [if_pos hiq, if_pos hiq]
      · rw [if_neg hiq, if_neg hiq]
        exact ih

theorem parseExpiry_never (created : Nat) : parseExpiry created "never" = none := by
  rw [parseExpiry, if_pos rfl]

theorem isExpired_false_of_metaNeverExpires (now : Nat) (pf : PasteFiles)
    (h : metaNeverExpires pf.meta = true) : isExpired now pf = false := by
  cases hm : pf.meta with
  | absent => simp [isExpired, expiresAtOf, hm]
  | invalid => simp [isExpired, expiresAtOf, hm]
  | valid m =>
    rw [hm, metaNeverExpires] at h
    simp only [Bool.or_eq_true, decide_eq_true_eq] at h
    cases hc : m.created_at with
    | none => simp [isExpired, expiresAtOf, hm, hc]
    | some c =>
      rcases h with h | h <;>
        simp [isExpired, expiresAtOf, hm, hc, h, parseExpiry_never]

/-- C3: for every creation instant `created` and every token matching
`^(\d+)([smhd])$` — its data is a nonempty run `ds` of digits denoting
`n`, followed by one unit letter `u` worth `k` seconds — the expiry
computation returns exactly `created + n * k`. (The duration parser is
modelled from the spec; `src/main.py` hardcodes `expires = "never"`.) -/
theorem parseExpiry_valid_token (created n k : Nat) (ds : List Char) (u : Char)
    (token : String) (htok : token.data = ds ++ [u]) (hne : ds ≠ [])
    (hdig : ds.all Char.isDigit = true) (hn : digitsToNat ds = n)
    (hu : unitSeconds u = some k) :
    parseExpiry created token = some (created + n * k) := by
  have hnev : token ≠ "never" := by
    intro h
    subst h
    have h5 : ds ++ [u] = ['n', 'e', 'v', 'e'] ++ ['r'] := htok.symm.trans (by decide)
    have hd : ds = ['n', 'e', 'v', 'e'] := (List.append_inj' h5 rfl).1
    rw [hd] at hdig
    exact absurd hdig (by decide)
  have hemp : ds.isEmpty = false := by
    cases ds with
    | nil => exact absurd rfl hne
    | cons a l => rfl
  rw [parseExpiry, if_neg hnev, htok]
  simp [List.getLast?_concat, List.dropLast_concat, hu, hemp, hdig, hn]

/-- Witness for C3 at the concrete token `"90m"`. -/
theorem parseExpiry_valid_token_witness :
    parseExpiry 100 "90m" = some (100 + 90 * 60) :=
  parseExpiry_valid_token 100 90 60 ['9', '0'] 'm' "90m" (by decide) (by decide)
    (by decide) (by decide) (by decide)

/-- C1 is false on this code: `create_paste` accepts no expiry token
(`expires` is hardcoded `"never"`), so for the paste created with
content `"hello"` there is no expiry instant (`expiresAtOf` is `none`),
the record is not expired even one second after creation, and the view
still renders the page instead of reporting `NotFound`. -/
theorem create_then_view_no_expiry_cex :
    (lookupPaste (create_paste [] "abc12345" "hello" "Untitled Paste" "none"
        "public" 1000 none).1 "abc12345")
      = some ⟨"hello", 1000, .valid ⟨some "Untitled Paste", some "none",
          some "public", some "never", some 1000, some 0⟩⟩
    ∧ expiresAtOf ⟨"hello", 1000, .valid ⟨some "Untitled Paste", some "none",
        some "public", some "never", some 1000, some 0⟩⟩ = none
    ∧ isExpired 1001 ⟨"hello", 1000, .valid ⟨some "Untitled Paste", some "none",
        some "public", some "never", some 1000, some 0⟩⟩ = false
    ∧ (view_paste (create_paste [] "abc12345" "hello" "Untitled Paste" "none"
        "public" 1000 none).1 "abc12345").1
      = .page "abc12345" "Untitled Paste" "hello"
    ∧ (view_paste (create_paste [] "abc12345" "hello" "Untitled Paste" "none"
        "public" 1000 none).1 "abc12345").1
      ≠ .notFound 404 "Paste not found" := by
  refine ⟨by decide, by decide, by decide, by decide, by decide⟩

/-- C1 amended: a view immediately after creation succeeds with the
submitted content, and — because the stored record carries
`expires = "never"` — the record is not expired at any instant `t`, so
a view performed at any later time still succeeds and never reports
`NotFound`. -/
theorem view_after_create_always_succeeds (s : Store)
    (pid content title syn vis : String) (now t : Nat) :
    (view_paste (create_paste s pid content title syn vis now none).1 pid).1
      = .page pid (titleOf (some title) pid) content
    ∧ lookupPaste (create_paste s pid content title syn vis now none).1 pid
      = some ⟨content, now, .valid ⟨some title, some syn, some vis,
          some "never", some now, some 0⟩⟩
    ∧ isExpired t ⟨content, now, .valid ⟨some title, some syn, some vis,
        some "never", some now, some 0⟩⟩ = false := by
  refine ⟨?_, ?_, ?_⟩
  · simp [create_paste, view_paste, lookupPaste]
  · simp [create_paste, lookupPaste]
  · exact isExpired_false_of_metaNeverExpires t _ (by simp [metaNeverExpires])

/-- C2 is false on this code: the `except` branch of `create_paste`
returns the injected exception's text verbatim in the `details` field
of the 500 response body. -/
theorem create_error_leaks_details_cex :
    (create_paste [] "abc12345" "x" "T" "none" "public" 0 (some "disk full")).2
      = .err 500 "Internal Server Error" "disk full" := by decide

/-- C2 amended: on every storage failure `e`, `create_paste` leaves the
store unchanged and answers a 500 whose body carries the generic
message `"Internal Server Error"` together with the exception text `e`
verbatim in its `details` field (the exception is also logged by
`logger.exception`). -/
theorem create_error_response (s : Store) (pid content title syn vis : String)
    (now : Nat) (e : String) :
    create_paste s pid content title syn vis now (some e)
      = (s, .err 500 "Internal Server Error" e) := rfl

/-- C4: `top_pastes` returns the stored records rearranged into an
order sorted by content byte size descending, truncated to the first
10, each rendered as its info entry; over records of content sizes
`[5, 1, 9, 3]` the record of size 9 comes first, and the empty store
yields the empty list. -/
theorem top_pastes_sorted_by_size :
    (∀ s : Store, ∃ l : Store, l.Perm s ∧ l.Sorted bySize
        ∧ top_pastes s = (l.take 10).map infoOf)
    ∧ top_pastes [] = []
    ∧ (top_pastes [("a", ⟨"aaaaa", 0, .absent⟩), ("b", ⟨"b", 0, .absent⟩),
        ("c", ⟨"ccccccccc", 0, .absent⟩), ("d", ⟨"ddd", 0, .absent⟩)]).head?
      = some ⟨"c", "c", 0⟩ := by
  refine ⟨fun s => ⟨List.insertionSort bySize s, List.perm_insertionSort bySize s,
    List.sorted_insertionSort bySize s, rfl⟩, rfl, by decide⟩

/-- C5: `recent_pastes` returns the stored records rearranged into an
order sorted by the content file's modification time descending — which
is the creation instant, since `create_paste` writes the `.txt` file
exactly once, at `now`, the same instant it stores in `created_at` —
truncated to the first 10; over records created at instants
`1 < 2 < 3` the first two entries are the ids of the instant-3 and
instant-2 records, and the empty store yields the empty list. -/
theorem recent_pastes_sorted_by_creation :
    (∀ s : Store, ∃ l : Store, l.Perm s ∧ l.Sorted byMtime
        ∧ recent_pastes s = (l.take 10).map infoOf)
    ∧ (∀ (s : Store) (pid content title syn vis : String) (now : Nat),
        lookupPaste (create_paste s pid content title syn vis now none).1 pid
          = some ⟨content, now, .valid ⟨some title, some syn, some vis,
              some "never", some now, some 0⟩⟩)
    ∧ recent_pastes [] = []
    ∧ ((recent_pastes [("p1", ⟨"x", 1, .absent⟩), ("p3", ⟨"z", 3, .absent⟩),
        ("p2", ⟨"y", 2, .absent⟩)]).take 2).map Info.id = ["p3", "p2"] := by
  refine ⟨fun s => ⟨List.insertionSort byMtime s, List.perm_insertionSort byMtime s,
    List.sorted_insertionSort byMtime s, rfl⟩, ?_, rfl, by decide⟩
  intro s pid content title syn vis now
  simp [create_paste, lookupPaste]

/-- C6 is false on this code: create a paste with the empty string as
title; the view's `data.get("title", paste_id) or paste_id` fallback
replaces the falsy empty title by the paste id, so the rendered record
differs from the stored one in the `title` field, not only in `views`. -/
theorem roundtrip_empty_title_cex :
    (view_paste (create_paste [] "deadbeef" "x" "" "none" "public" 0 none).1
        "deadbeef").1
      = .page "deadbeef" "deadbeef" "x"
    ∧ (view_paste (create_paste [] "deadbeef" "x" "" "none" "public" 0 none).1
        "deadbeef").1
      ≠ .page "deadbeef" "" "x"
    ∧ (lookupPaste (create_paste [] "deadbeef" "x" "" "none" "public" 0 none).1
        "deadbeef").map (fun pf => pf.meta)
      = some (.valid ⟨some "", some "none", some "public", some "never",
          some 0, some 0⟩) := by
  refine ⟨by decide, by decide, by decide⟩

/-- C6 amended: after a successful create, the view of the fresh paste
returns exactly the submitted content, and the submitted title unless
it is empty, in which case the paste id; the stored record keeps every
submitted field unchanged, the `views` counter alone moving from 0 to
1. -/
theorem create_view_roundtrip (s : Store) (pid content title syn vis : String)
    (now : Nat) :
    (view_paste (create_paste s pid content title syn vis now none).1 pid).1
      = .page pid (if title = "" then pid else title) content
    ∧ lookupPaste
        (view_paste (create_paste s pid content title syn vis now none).1 pid).2 pid
      = some ⟨content, now, .valid ⟨some title, some syn, some vis,
          some "never", some now, some 1⟩⟩ := by
  constructor
  · simp [create_paste, view_paste, lookupPaste, titleOf]
  · simp [create_paste, view_paste, lookupPaste, updateMeta]

/-- C7: in every store this program can produce (`neverExpiring`: no
record carries a real expiry token), the view operation answers the one
constant 404 response `"Paste not found"` exactly when the id is absent
or its record is expired — the expired disjunct being vacuous here — so
nothing distinguishes "never existed" from "expired" to the caller. -/
theorem view_notFound_iff_absent_or_expired (s : Store) (pid : String) (now : Nat)
    (hs : neverExpiring s = true) :
    (view_paste s pid).1 = .notFound 404 "Paste not found"
      ↔ (lookupPaste s pid = none
          ∨ ∃ pf, lookupPaste s pid = some pf ∧ isExpired now pf = true) := by
  cases h : lookupPaste s pid with
  | none =>
    constructor
    · intro _
      exact Or.inl rfl
    · intro _
      simp [view_paste, h]
  | some pf =>
    have hnev : metaNeverExpires pf.meta = true := by
      rw [neverExpiring, List.all_eq_true] at hs
      exact hs _ (lookupPaste_mem h)
    have hnotexp := isExpired_false_of_metaNeverExpires now pf hnev
    constructor
    · intro hv
      rw [view_paste, h] at hv
      cases hm : pf.meta <;> simp [hm] at hv
    · intro hd
      rcases hd with hd | ⟨pf', hpf', hexp⟩
      · exact Option.noConfusion hd
      · rw [Option.some_inj] at hpf'
        subst hpf'
        rw [hnotexp] at hexp
        exact Bool.noConfusion hexp

/-- Witness for C7: a missing id on a concrete never-expiring store is
answered with the constant 404. -/
theorem view_notFound_iff_absent_or_expired_witness :
    (view_paste [("aa", ⟨"x", 0, MetaFile.absent⟩)] "zz").1
      = .notFound 404 "Paste not found" :=
  (view_notFound_iff_absent_or_expired [("aa", ⟨"x", 0, MetaFile.absent⟩)] "zz" 0
    (by decide)).mpr (Or.inl (by decide))

/-- C8: on a stored paste with parsed metadata (every paste this
program stores has one), a successful view bumps the persisted `views`
counter by exactly one and leaves the content, the modification time
and every other metadata field (`title`, `syntax`, `visibility`,
`expires`, `created_at`) unchanged; every other record is untouched,
and `create_paste` on a distinct id leaves existing records unchanged
(`top_pastes`/`recent_pastes` take no store output at all). -/
theorem view_increments_only_views (s : Store) (pid : String) (pf : PasteFiles)
    (m : Meta) (hl : lookupPaste s pid = some pf)
    (hm : pf.meta = MetaFile.valid m) :
    (view_paste s pid).1 = .page pid (titleOf m.title pid) pf.content
    ∧ lookupPaste (view_paste s pid).2 pid
      = some { pf with
          meta := MetaFile.valid { m with views := some (m.views.getD 0 + 1) } }
    ∧ (∀ q : String, q ≠ pid →
        lookupPaste (view_paste s pid).2 q = lookupPaste s q)
    ∧ (∀ (pid2 content title syn vis : String) (now : Nat) (q : String),
        q ≠ pid2 →
        lookupPaste (create_paste s pid2 content title syn vis now none).1 q
          = lookupPaste s q) := by
  have hview : view_paste s pid
      = (.page pid (titleOf m.title pid) pf.content,
          updateMeta s pid (.valid { m with views := some (m.views.getD 0 + 1) })) := by
    simp [view_paste, hl, hm]
  refine ⟨by rw [hview], ?_, ?_, ?_⟩
  · rw [hview]
    exact lookupPaste_updateMeta_self _ hl
  · intro q hq
    rw [hview]
    exact lookupPaste_updateMeta_ne _ hq
  · intro pid2 content title syn vis now q hq
    simp [create_paste, lookupPaste, Ne.symm hq]

/-- Witness for C8: a concrete view moves `views` from 3 to 4 and keeps
the other fields. -/
theorem view_increments_only_views_witness :
    lookupPaste (view_paste [("aa", ⟨"x", 5, MetaFile.valid ⟨some "T", some "none",
        some "public", some "never", some 5, some 3⟩⟩)] "aa").2 "aa"
      = some ⟨"x", 5, MetaFile.valid ⟨some "T", some "none", some "public",
          some "never", some 5, some 4⟩⟩ :=
  (view_increments_only_views [("aa", ⟨"x", 5, MetaFile.valid ⟨some "T", some "none",
      some "public", some "never", some 5, some 3⟩⟩)] "aa"
    ⟨"x", 5, MetaFile.valid ⟨some "T", some "none", some "public", some "never",
      some 5, some 3⟩⟩
    ⟨some "T", some "none", some "public", some "never", some 5, some 3⟩
    (by decide) rfl).2.1

/-- C9: `create_paste` stores every record with `expires = "never"`
(it accepts no expiry token), such a record is expired at no instant,
the two list endpoints keep every stored record (up to the top-10
truncation: their output length is `min 10 |store|`, no liveness
filtering), and the view succeeds on every present record. -/
theorem never_expire_enforced :
    (∀ (s : Store) (pid content title syn vis : String) (now : Nat),
      lookupPaste (create_paste s pid content title syn vis now none).1 pid
        = some ⟨content, now, .valid ⟨some title, some syn, some vis,
            some "never", some now, some 0⟩⟩)
    ∧ (∀ (t now : Nat) (content title syn vis : String),
      isExpired t ⟨content, now, .valid ⟨some title, some syn, some vis,
          some "never", some now, some 0⟩⟩ = false)
    ∧ (∀ s : Store, (top_pastes s).length = min 10 s.length)
    ∧ (∀ s : Store, (recent_pastes s).length = min 10 s.length)
    ∧ (∀ (s : Store) (pid : String) (pf : PasteFiles),
        lookupPaste s pid = some pf →
        ∃ t, (view_paste s pid).1 = ViewResult.page pid t pf.content) := by
  refine ⟨?_, ?_, ?_, ?_, ?_⟩
  · intro s pid content title syn vis now
    simp [create_paste, lookupPaste]
  · intro t now content title syn vis
    exact isExpired_false_of_metaNeverExpires t _ (by simp [metaNeverExpires])
  · intro s
    rw [top_pastes, List.length_map, List.length_take,
      (List.perm_insertionSort bySize s).length_eq]
  · intro s
    rw [recent_pastes, List.length_map, List.length_take,
      (List.perm_insertionSort byMtime s).length_eq]
  · intro s pid pf h
    cases hm : pf.meta with
    | absent => exact ⟨pid, by simp [view_paste, h, hm]⟩
    | invalid => exact ⟨pid, by simp [view_paste, h, hm]⟩
    | valid m => exact ⟨titleOf m.title pid, by simp [view_paste, h, hm]⟩

/-- Witness for C9: the view succeeds on a concrete present record. -/
theorem never_expire_enforced_witness :
    ∃ t, (view_paste [("aa", ⟨"x", 0, MetaFile.absent⟩)] "aa").1
      = ViewResult.page "aa" t "x" :=
  never_expire_enforced.2.2.2.2 [("aa", ⟨"x", 0, MetaFile.absent⟩)] "aa"
    ⟨"x", 0, MetaFile.absent⟩ (by decide)

/-- C10 is partly false on this code: when the metadata sidecar is
absent, the view succeeds with the stored content and the id as title,
but the `if os.path.exists(meta_path)` guard skips the rewrite
entirely — the store is unchanged, so no rewritten metadata records
`views = 1`. -/
theorem view_absent_meta_no_write_cex :
    (view_paste [("aa", ⟨"x", 0, MetaFile.absent⟩)] "aa").1 = .page "aa" "aa" "x"
    ∧ (view_paste [("aa", ⟨"x", 0, MetaFile.absent⟩)] "aa").2
      = [("aa", ⟨"x", 0, MetaFile.absent⟩)] := ⟨by decide, by decide⟩

/-- C10 amended: whenever the content file exists the view succeeds
with the stored content; with an absent or invalid sidecar the title
falls back to the paste id; with an invalid sidecar the rewritten
metadata holds only `views = 1`, while with an absent sidecar nothing
is written at all. -/
theorem view_meta_fallback (s : Store) (pid : String) (pf : PasteFiles)
    (hl : lookupPaste s pid = some pf) :
    (pf.meta = MetaFile.absent →
      (view_paste s pid).1 = .page pid pid pf.content ∧ (view_paste s pid).2 = s)
    ∧ (pf.meta = MetaFile.invalid →
      (view_paste s pid).1 = .page pid pid pf.content
      ∧ lookupPaste (view_paste s pid).2 pid
        = some { pf with
            meta := MetaFile.valid ⟨none, none, none, none, none, some 1⟩ }) := by
  constructor
  · intro hm
    constructor <;> simp [view_paste, hl, hm]
  · intro hm
    have hview : view_paste s pid = (.page pid pid pf.content,
        updateMeta s pid (.valid ⟨none, none, none, none, none, some 1⟩)) := by
      simp [view_paste, hl, hm]
    refine ⟨by rw [hview], ?_⟩
    rw [hview]
    exact lookupPaste_updateMeta_self _ hl

/-- Witness for C10 (amended): a concrete invalid sidecar is rewritten
to hold only `views = 1`. -/
theorem view_meta_fallback_witness :
    lookupPaste (view_paste [("aa", ⟨"x", 0, MetaFile.invalid⟩)] "aa").2 "aa"
      = some ⟨"x", 0, MetaFile.valid ⟨none, none, none, none, none, some 1⟩⟩ :=
  ((view_meta_fallback [("aa", ⟨"x", 0, MetaFile.invalid⟩)] "aa"
      ⟨"x", 0, MetaFile.invalid⟩ (by decide)).2 rfl).2
example : parseExpiry 100 "never" = none := by decide
example : parseExpiry 100 "5x" = none := by decide
example : parseExpiry 100 "s" = none := by decide
example : parseExpiry 100 "3d" = some (100 + 3 * 86400) := by decide
example : lookupPaste [("aa", ⟨"x", 0, .absent⟩)] "aa" = some ⟨"x", 0, .absent⟩ := by decide
example :
    (view_paste [("aa", ⟨"x", 0, .absent⟩)] "bb").1 = .notFound 404 "Paste not found" := by
  decide
example :
    top_pastes [("a", ⟨"aaaaa", 0, .absent⟩), ("b", ⟨"b", 0, .absent⟩),
      ("c", ⟨"ccccccccc", 0, .absent⟩), ("d", ⟨"ddd", 0, .absent⟩)]
    = [⟨"c", "c", 0⟩, ⟨"a", "a", 0⟩, ⟨"d", "d", 0⟩, ⟨"b", "b", 0⟩] := by decide
example :
    recent_pastes [("p1", ⟨"x", 1, .absent⟩), ("p3", ⟨"z", 3, .absent⟩),
      ("p2", ⟨"y", 2, .absent⟩)]
    = [⟨"p3", "p3", 0⟩, ⟨"p2", "p2", 0⟩, ⟨"p1", "p1", 0⟩] := by decide

end Sinners
